import Mathlib

/-!
Verification model of the c64u-obs video pipeline.

The definitions below are a shallow embedding of the C sources:
`src/c64u-video.c` (frame assembly, color conversion, double buffering),
`src/c64u-source.c` (`c64u_stop_streaming`), and the timing module
(`c64u_timing_should_deliver_frame`, `c64u_timing_get_frame_for_obs`,
`c64u_timing_on_obs_frame_delivered`, `c64u_timing_init`).

Machine integers are modelled as `Nat` (with wrap-around subtraction made
explicit through `u64sub` where the C code subtracts `uint64_t` timestamps);
C doubles that only ever hold exact small decimal values are modelled as `ℚ`.
Protocol constants whose defining header is not part of the repository
snapshot are either taken from the specification (the two known frame
heights, the line width) or left as parameters of a `Cfg` record (slot-table
capacity, lines per packet, the frame timeout).
-/

namespace C64U

/-- Modelled from the spec: the pixel format is fixed at 384 pixels per line
(`C64U_PIXELS_PER_LINE`); the defining header is not in the snapshot. -/
def C64U_PIXELS_PER_LINE : Nat := 384

/-- Modelled from the spec: packed 4-bit pixels give `384 / 2 = 192` payload
bytes per line (`C64U_BYTES_PER_LINE`); the defining header is not in the
snapshot. -/
def C64U_BYTES_PER_LINE : Nat := 192

/-- Modelled from the spec: PAL frame height 288 (`C64U_PAL_HEIGHT`); the
defining header is not in the snapshot. -/
def C64U_PAL_HEIGHT : Nat := 288

/-- Modelled from the spec: NTSC frame height 240 (`C64U_NTSC_HEIGHT`); the
defining header is not in the snapshot. -/
def C64U_NTSC_HEIGHT : Nat := 240

/-- Protocol constants whose numeric values live in a header outside the
snapshot; the model is parametric in them. -/
structure Cfg where
  maxPackets : Nat
  linesPerPacket : Nat
  timeoutMs : Nat

/-- 64-bit wrap-around subtraction `a - b` on `uint64_t` values. -/
def u64sub (a b : Nat) : Nat := (a + 2 ^ 64 - b) % 2 ^ 64

/-- The VIC color palette from `c64u-video.c` (`vic_colors`, BGRA). -/
def vic_colors : List Nat :=
  [0xFF000000, 0xFFEFEFEF, 0xFF342F8D, 0xFFCDD46A,
   0xFFA43598, 0xFF42B44C, 0xFFB1292C, 0xFF5DEFEF,
   0xFF204E98, 0xFF00385B, 0xFF6D67D1, 0xFF4A4A4A,
   0xFF7B7B7B, 0xFF93EF9F, 0xFFEF6A6D, 0xFFB2B2B2]

/-- Array indexing into `vic_colors`. -/
def palette (i : Nat) : Nat := vic_colors.getD i 0

/-- One slot of `frame_assembly.packets`: `struct frame_packet`. The payload
is a byte map (index into the copied packet data). -/
structure FramePacket where
  received : Bool
  line_num : Nat
  lines_per_packet : Nat
  packet_data : Nat → Nat

instance : Inhabited FramePacket :=
  ⟨{ received := false, line_num := 0, lines_per_packet := 0, packet_data := fun _ => 0 }⟩

/-- `struct frame_assembly` from `c64u-types.h` as used by `c64u-video.c`. -/
structure FrameAssembly where
  frame_num : Nat
  start_time : Nat
  received_packets : Nat
  expected_packets : Nat
  packets : List FramePacket

/-- `init_frame_assembly`: zero the struct, then set the frame number and the
start time to the current clock. -/
def init_frame_assembly (cfg : Cfg) (frame_num : Nat) (now : Nat) : FrameAssembly :=
  { frame_num := frame_num
    start_time := now
    received_packets := 0
    expected_packets := 0
    packets := List.replicate cfg.maxPackets default }

/-- `is_frame_complete`: `received_packets > 0 && received_packets == expected_packets`. -/
def is_frame_complete (f : FrameAssembly) : Bool :=
  decide (0 < f.received_packets ∧ f.received_packets = f.expected_packets)

/-- `is_frame_timeout`: elapsed milliseconds since `start_time` exceed the
timeout constant. -/
def is_frame_timeout (cfg : Cfg) (now : Nat) (f : FrameAssembly) : Bool :=
  decide (u64sub now f.start_time / 1000000 > cfg.timeoutMs)

/-- A pixel buffer: row index, column index to 32-bit pixel value. -/
def Buffer : Type := Nat → Nat → Nat

/-- The inner `x` loop of `assemble_frame_to_buffer`: for each packed byte
`src x` with `x < n`, write `vic_colors[src x & 0x0F]` at column `2*x` and
`vic_colors[src x >> 4]` at column `2*x + 1`. -/
def write_pixels (dst : Nat → Nat) (src : Nat → Nat) : Nat → (Nat → Nat)
  | 0 => dst
  | x + 1 =>
    let d := write_pixels dst src x
    fun c =>
      if c = 2 * x + 1 then palette (src x / 16)
      else if c = 2 * x then palette (src x % 16)
      else d c

/-- Replace one row of a buffer. -/
def update_row (b : Buffer) (r : Nat) (row : Nat → Nat) : Buffer :=
  fun r2 => if r2 = r then row else b r2

/-- The `line` loop of `assemble_frame_to_buffer`: write rows
`line_num + line` for `line < k`, reading `C64U_BYTES_PER_LINE` bytes per
row from the packet payload. -/
def write_lines (buf : Buffer) (line_num : Nat) (data : Nat → Nat) : Nat → Buffer
  | 0 => buf
  | k + 1 =>
    let b := write_lines buf line_num data k
    update_row b (line_num + k)
      (write_pixels (b (line_num + k)) (fun x => data (k * C64U_BYTES_PER_LINE + x))
        C64U_BYTES_PER_LINE)

/-- One iteration of the packet loop of `assemble_frame_to_buffer`: skip
slots not received; otherwise run the line loop, whose condition
`line < lines_per_packet && line_num + line < height` bounds it by
`min lines_per_packet (height - line_num)`. -/
def write_packet (height : Nat) (buf : Buffer) (p : FramePacket) : Buffer :=
  if p.received then
    write_lines buf p.line_num p.packet_data (min p.lines_per_packet (height - p.line_num))
  else buf

/-- `assemble_frame_to_buffer`: all received slots, in slot order, into the
back buffer. -/
def assemble_frame_to_buffer (height : Nat) (buf : Buffer) (frame : FrameAssembly) : Buffer :=
  frame.packets.foldl (write_packet height) buf

/-- `c64u_timing_strategy_t`. -/
inductive Strategy where
  | passthrough
  | adaptive
  | interpolation
  | vsync
deriving DecidableEq

/-- The interpolation ring-buffer bookkeeping of `struct c64u_timing_state`
(the heap frame copies themselves are outside the model). -/
structure InterpState where
  write_index : Nat
  buffer_ready : Bool

/-- `struct c64u_timing_state` (from `c64u-timing.h`). -/
structure TimingState where
  strategy : Strategy
  target_fps : ℚ
  source_fps : ℚ
  last_obs_frame_time : Nat
  last_c64_frame_time : Nat
  obs_frame_interval_ns : Nat
  c64_frame_interval_ns : Nat
  frame_debt : ℚ
  frames_delivered : Nat
  frames_received : Nat
  interp : InterpState
  frames_dropped : Nat
  frames_duplicated : Nat
  frames_interpolated : Nat

/-- `c64u_timing_init`: zero the struct, then set the configuration fields;
the intervals are `(uint64_t)(1000000000.0 / fps)`. (Interpolation buffer
allocation is outside the model; allocation is assumed to succeed, so the
fallback-to-adaptive path is not taken.) -/
def c64u_timing_init (strategy : Strategy) (target_fps source_fps : ℚ) : TimingState :=
  { strategy := strategy
    target_fps := target_fps
    source_fps := source_fps
    last_obs_frame_time := 0
    last_c64_frame_time := 0
    obs_frame_interval_ns := ((1000000000 : ℚ) / target_fps).floor.toNat
    c64_frame_interval_ns := ((1000000000 : ℚ) / source_fps).floor.toNat
    frame_debt := 0
    frames_delivered := 0
    frames_received := 0
    interp := { write_index := 0, buffer_ready := false }
    frames_dropped := 0
    frames_duplicated := 0
    frames_interpolated := 0 }

/-- `c64u_timing_on_c64_frame_received`. -/
def c64u_timing_on_c64_frame_received (t : TimingState) (now : Nat) : TimingState :=
  { t with frames_received := t.frames_received + 1, last_c64_frame_time := now }

/-- `c64u_timing_should_deliver_frame`: returns the decision and the updated
timing state (the C function mutates `last_obs_frame_time` and
`frame_debt` in place). -/
def c64u_timing_should_deliver_frame (t : TimingState) (now : Nat) : Bool × TimingState :=
  match t.strategy with
  | Strategy.passthrough => (true, t)
  | _ =>
    if t.frames_delivered < 10 then (true, t)
    else if t.last_obs_frame_time = 0 ∨ t.frames_received < 5 then
      (true, { t with last_obs_frame_time := now })
    else
      let obs_elapsed := u64sub now t.last_obs_frame_time
      let min_interval := t.obs_frame_interval_ns / 2
      if obs_elapsed ≥ min_interval then (true, t)
      else
        let expected_obs_frames := obs_elapsed / t.obs_frame_interval_ns
        let should_deliver := t.frames_delivered ≤ expected_obs_frames
        let t1 :=
          if t.frames_received > 10 ∧ obs_elapsed > t.obs_frame_interval_ns then
            let c64_rate : ℚ := t.frames_received * 1000000000 / obs_elapsed
            let obs_rate : ℚ := t.target_fps
            { t with frame_debt := t.frame_debt + (c64_rate / obs_rate - 1) }
          else t
        (should_deliver, t1)

/-- `c64u_timing_on_obs_frame_delivered`. -/
def c64u_timing_on_obs_frame_delivered (t : TimingState) (now : Nat) : TimingState :=
  let t1 := { t with frames_delivered := t.frames_delivered + 1 }
  let t2 :=
    if t1.last_obs_frame_time > 0 ∧
        u64sub now t1.last_obs_frame_time < t1.obs_frame_interval_ns / 2 then
      { t1 with frames_duplicated := t1.frames_duplicated + 1 }
    else t1
  { t2 with last_obs_frame_time := now }

/-- The timing-state effect of `c64u_timing_get_frame_for_obs` (the returned
pixel pointer is always the front buffer for the passthrough, adaptive and
vsync strategies and is not part of the timing state). -/
def c64u_timing_get_frame_effect (t : TimingState) : TimingState :=
  match t.strategy with
  | Strategy.passthrough => t
  | Strategy.adaptive =>
    if t.frame_debt > 2 then
      { t with frame_debt := t.frame_debt - 1, frames_dropped := t.frames_dropped + 1 }
    else if t.frame_debt < -2 then
      { t with frame_debt := t.frame_debt + 1, frames_duplicated := t.frames_duplicated + 1 }
    else t
  | Strategy.interpolation =>
    { t with interp := { write_index := (t.interp.write_index + 1) % 3, buffer_ready := true } }
  | Strategy.vsync => t

/-- One delivery poll as `c64u_render` performs it for a non-passthrough
strategy: ask `should_deliver`, and on a positive answer select the frame
and record the delivery. Returns the decision and the new timing state. -/
def render_poll (t : TimingState) (now : Nat) : Bool × TimingState :=
  let r := c64u_timing_should_deliver_frame t now
  if r.1 then (true, c64u_timing_on_obs_frame_delivered (c64u_timing_get_frame_effect r.2) now)
  else (false, r.2)

/-- The timing state after `k` delivery polls at instants
`times 0, times 1, ...`. -/
def poll_trace (t : TimingState) (times : Nat → Nat) : Nat → TimingState
  | 0 => t
  | k + 1 => (render_poll (poll_trace t times k) (times k)).2

/-- The decision of the `k`-th delivery poll (0-based). -/
def poll_decision (t : TimingState) (times : Nat → Nat) (k : Nat) : Bool :=
  (render_poll (poll_trace t times k) (times k)).1

/-- The fields of `struct c64u_source` that the modelled code paths touch. -/
structure Context where
  streaming : Bool
  thread_active : Bool
  width : Nat
  height : Nat
  frame_buffer_front : Buffer
  frame_buffer_back : Buffer
  frame_ready : Bool
  buffer_swap_pending : Bool
  current_frame : FrameAssembly
  last_completed_frame : Nat
  last_capture_time : Nat
  frame_drops : Nat
  packet_drops : Nat
  frames_expected : Nat
  frames_captured : Nat
  frames_completed : Nat
  buffer_swaps : Nat
  frames_delivered_to_obs : Nat
  total_pipeline_latency : Nat
  format_detected : Bool
  detected_frame_height : Nat
  expected_fps : ℚ
  timing : Option TimingState

/-- `swap_frame_buffers`. -/
def swap_frame_buffers (ctx : Context) : Context :=
  { ctx with
    frame_buffer_front := ctx.frame_buffer_back
    frame_buffer_back := ctx.frame_buffer_front
    frame_ready := true
    buffer_swap_pending := false }

/-- The guarded assemble-and-swap block of `video_thread_func` (it appears
verbatim on the new-frame preemption path and on the in-frame completion
path): under the frame mutex, if `last_completed_frame` differs from the
current frame number, assemble into the back buffer, swap, record the frame
number and bump the delivery diagnostics. -/
def try_complete (ctx : Context) (now capture_time : Nat) : Context :=
  if ctx.last_completed_frame ≠ ctx.current_frame.frame_num then
    let ctx1 :=
      { ctx with
        frame_buffer_back := assemble_frame_to_buffer ctx.height ctx.frame_buffer_back
          ctx.current_frame }
    let ctx2 := swap_frame_buffers ctx1
    { ctx2 with
      last_completed_frame := ctx.current_frame.frame_num
      frames_completed := ctx.frames_completed + 1
      buffer_swaps := ctx.buffer_swaps + 1
      frames_delivered_to_obs := ctx.frames_delivered_to_obs + 1
      total_pipeline_latency := ctx.total_pipeline_latency + u64sub now capture_time }
  else ctx

/-- The new-frame branch of `video_thread_func` (entered when the packet's
frame number differs from the current frame): bump the capture diagnostics,
finalize the previous frame (assemble if complete, else count a drop if
timed out, else abandon silently), then start a fresh assembly for the new
frame number. -/
def handle_new_frame (cfg : Cfg) (ctx : Context) (frame_num : Nat) (now : Nat) : Context :=
  let ctx1 :=
    { ctx with
      frames_expected :=
        if ctx.last_capture_time > 0 then ctx.frames_expected + 1 else ctx.frames_expected
      frames_captured := ctx.frames_captured + 1
      last_capture_time := now }
  let ctx2 :=
    if ctx1.current_frame.received_packets > 0 then
      if is_frame_complete ctx1.current_frame || is_frame_timeout cfg now ctx1.current_frame then
        if is_frame_complete ctx1.current_frame then
          try_complete ctx1 now now
        else
          { ctx1 with frame_drops := ctx1.frame_drops + 1 }
      else ctx1
    else ctx1
  { ctx2 with current_frame := init_frame_assembly cfg frame_num now }

/-- The slot write of `video_thread_func` (first-writer-wins): if the slot at
`line_num / lines_per_packet` is unoccupied, fill it from the packet and
count it; otherwise leave the table unchanged. -/
def add_to_slots (cfg : Cfg) (cf : FrameAssembly) (line_num : Nat) (data : Nat → Nat) :
    FrameAssembly :=
  let packet_index := line_num / cfg.linesPerPacket
  if !(cf.packets.getD packet_index default).received then
    { cf with
      packets := cf.packets.set packet_index
        { received := true
          line_num := line_num
          lines_per_packet := cfg.linesPerPacket
          packet_data := data }
      received_packets := cf.received_packets + 1 }
  else cf

/-- The frame-level effect of one in-bounds packet on the assembly state:
the slot write followed by the `expected_packets` update (performed when the
packet carries the last-packet flag and `expected_packets` is still 0). -/
def accumulate (cfg : Cfg) (cf : FrameAssembly) (line_num : Nat) (last_packet : Bool)
    (data : Nat → Nat) : FrameAssembly :=
  let cf2 := add_to_slots cfg cf line_num data
  if last_packet && (cf2.expected_packets == 0) then
    { cf2 with expected_packets := line_num / cfg.linesPerPacket + 1 }
  else cf2

/-- The format-detection block of `video_thread_func` (runs with
`frame_height = line_num + lines_per_packet` when a first last-packet is
seen): if no format was detected yet or the height changed, record the
height, derive the expected rate (PAL height: 50 Hz; NTSC height: 60 Hz;
otherwise 60 Hz up to 250 rows and 50 Hz above), and update the context
dimensions if they changed. -/
def detect_format (ctx : Context) (frame_height : Nat) : Context :=
  if !ctx.format_detected || ctx.detected_frame_height ≠ frame_height then
    let fps : ℚ :=
      if frame_height = C64U_PAL_HEIGHT then 50
      else if frame_height = C64U_NTSC_HEIGHT then 60
      else if frame_height ≤ 250 then 60 else 50
    let ctx1 :=
      { ctx with
        detected_frame_height := frame_height
        format_detected := true
        expected_fps := fps }
    if ctx1.height ≠ frame_height then
      { ctx1 with height := frame_height, width := C64U_PIXELS_PER_LINE }
    else ctx1
  else ctx

/-- The packet-accumulation part of `video_thread_func`: bounds-check the
packet index, add the packet to the slot table, update
`expected_packets`/format detection on a first last-packet, and on
completion run the guarded assemble-and-swap and reset the assembly with
frame number 0. -/
def add_packet (cfg : Cfg) (ctx : Context) (line_num : Nat) (last_packet : Bool)
    (data : Nat → Nat) (now : Nat) : Context :=
  let packet_index := line_num / cfg.linesPerPacket
  if packet_index < cfg.maxPackets then
    let cf3 := accumulate cfg ctx.current_frame line_num last_packet data
    let ctx2 :=
      if last_packet &&
          ((add_to_slots cfg ctx.current_frame line_num data).expected_packets == 0) then
        detect_format ctx (line_num + cfg.linesPerPacket)
      else ctx
    let ctx3 := { ctx2 with current_frame := cf3 }
    if is_frame_complete cf3 then
      let ctx4 := try_complete ctx3 now now
      { ctx4 with current_frame := init_frame_assembly cfg 0 now }
    else ctx3
  else ctx

/-- The per-packet body of `video_thread_func` after header validation:
split the last-packet flag off the line number, finalize/restart on a frame
number change, then accumulate the packet. A single instant `now` stands
for the clock reads made while processing this packet. -/
def process_packet (cfg : Cfg) (ctx : Context) (frame_num line_num_raw : Nat)
    (data : Nat → Nat) (now : Nat) : Context :=
  let last_packet := (line_num_raw &&& 0x8000) != 0
  let line_num := line_num_raw &&& 0x7FFF
  let ctx1 :=
    if ctx.current_frame.frame_num ≠ frame_num then handle_new_frame cfg ctx frame_num now
    else ctx
  add_packet cfg ctx1 line_num last_packet data now

/-- `c64u_stop_streaming` (diffable against `src/c64u-source.c`): after the
early-out on a non-streaming context, clear the flags, zero both pixel
buffers under the frame mutex, and reset the assembly state and the
context's diagnostic counters under the assembly mutex. The socket and
thread teardown has no further state effect in this model; the timing state
is not touched. -/
def c64u_stop_streaming (cfg : Cfg) (ctx : Context) : Context :=
  if !ctx.streaming then ctx
  else
    { ctx with
      streaming := false
      thread_active := false
      frame_ready := false
      buffer_swap_pending := false
      frame_buffer_front := fun _ _ => 0
      frame_buffer_back := fun _ _ => 0
      current_frame :=
        { frame_num := 0
          start_time := 0
          received_packets := 0
          expected_packets := 0
          packets := List.replicate cfg.maxPackets default }
      last_completed_frame := 0
      frame_drops := 0
      packet_drops := 0
      frames_expected := 0
      frames_captured := 0
      frames_delivered_to_obs := 0
      frames_completed := 0 }

/-- A concrete context used to instantiate theorems with hypotheses. -/
def sampleCtx : Context :=
  { streaming := true
    thread_active := true
    width := 384
    height := 1
    frame_buffer_front := fun _ _ => 0
    frame_buffer_back := fun _ _ => 0
    frame_ready := false
    buffer_swap_pending := false
    current_frame := ⟨7, 0, 1, 0, [⟨true, 0, 1, fun _ => 5⟩]⟩
    last_completed_frame := 3
    last_capture_time := 0
    frame_drops := 0
    packet_drops := 0
    frames_expected := 0
    frames_captured := 0
    frames_completed := 0
    buffer_swaps := 0
    frames_delivered_to_obs := 0
    total_pipeline_latency := 0
    format_detected := false
    detected_frame_height := 0
    expected_fps := 50
    timing := none }

/-! ### Helper lemmas -/

theorem add_to_slots_expected (cfg : Cfg) (cf : FrameAssembly) (line_num : Nat)
    (data : Nat → Nat) :
    (add_to_slots cfg cf line_num data).expected_packets = cf.expected_packets := by
  simp only [add_to_slots]
  split <;> rfl

theorem is_frame_complete_iff (f : FrameAssembly) :
    is_frame_complete f = true ↔ 0 < f.received_packets ∧
      f.received_packets = f.expected_packets := by
  simp [is_frame_complete]

/-! ### Claim theorems -/

/-- C1: a frame is judged complete iff `received_packets > 0` and
`received_packets = expected_packets`; a frame with `expected_packets = 0`
is never complete; and during in-bounds accumulation `expected_packets` is
set exactly once — it never changes once nonzero, never changes on a
non-last packet, and the first last-packet seen while it is 0 sets it to
`packet_index + 1`. -/
theorem frame_complete_iff_and_expected_set_once :
    (∀ f : FrameAssembly, is_frame_complete f = true ↔
      0 < f.received_packets ∧ f.received_packets = f.expected_packets)
    ∧ (∀ f : FrameAssembly, f.expected_packets = 0 → is_frame_complete f = false)
    ∧ (∀ (cfg : Cfg) (cf : FrameAssembly) (line_num : Nat) (last : Bool) (data : Nat → Nat),
        cf.expected_packets ≠ 0 →
        (accumulate cfg cf line_num last data).expected_packets = cf.expected_packets)
    ∧ (∀ (cfg : Cfg) (cf : FrameAssembly) (line_num : Nat) (data : Nat → Nat),
        (accumulate cfg cf line_num false data).expected_packets = cf.expected_packets)
    ∧ (∀ (cfg : Cfg) (cf : FrameAssembly) (line_num : Nat) (data : Nat → Nat),
        cf.expected_packets = 0 →
        (accumulate cfg cf line_num true data).expected_packets =
          line_num / cfg.linesPerPacket + 1) := by
  refine ⟨is_frame_complete_iff, ?_, ?_, ?_, ?_⟩
  · intro f h
    simp [is_frame_complete, h]
    omega
  · intro cfg cf line_num last data h
    unfold accumulate
    simp only [add_to_slots_expected]
    split
    · rename_i hcond
      simp only [Bool.and_eq_true, beq_iff_eq, add_to_slots_expected] at hcond
      exact absurd hcond.2 h
    · exact add_to_slots_expected cfg cf line_num data
  · intro cfg cf line_num data
    unfold accumulate
    simp [add_to_slots_expected]
  · intro cfg cf line_num data h
    unfold accumulate
    simp [add_to_slots_expected, h]

/-- Witness for C1 at concrete inputs. -/
theorem frame_complete_iff_and_expected_set_once_witness :
    ((⟨7, 0, 0, 0, []⟩ : FrameAssembly).expected_packets = 0 ∧
      is_frame_complete ⟨7, 0, 5, 0, []⟩ = false) ∧
    (accumulate ⟨2, 4, 100⟩ ⟨7, 0, 0, 0, List.replicate 2 default⟩ 4 true
      (fun _ => 0)).expected_packets = 4 / 4 + 1 :=
  ⟨⟨rfl, frame_complete_iff_and_expected_set_once.2.1 ⟨7, 0, 5, 0, []⟩ rfl⟩,
    frame_complete_iff_and_expected_set_once.2.2.2.2 ⟨2, 4, 100⟩
      ⟨7, 0, 0, 0, List.replicate 2 default⟩ 4 (fun _ => 0) rfl⟩

/-- C4: on a packet arrival for the current frame, the slot-table update
either fills exactly the previously-unoccupied slot `line_num /
lines_per_packet` and increments `received_packets` by one (index in
bounds, slot empty, all other slots untouched), or changes nothing (slot
already occupied), and an out-of-range index leaves the whole context
unchanged. -/
theorem slot_update_first_writer_wins :
    (∀ (cfg : Cfg) (cf : FrameAssembly) (line_num : Nat) (data : Nat → Nat),
      cf.packets.length = cfg.maxPackets →
      line_num / cfg.linesPerPacket < cfg.maxPackets →
      (cf.packets.getD (line_num / cfg.linesPerPacket) default).received = false →
      (add_to_slots cfg cf line_num data).received_packets = cf.received_packets + 1
      ∧ (add_to_slots cfg cf line_num data).packets.getD (line_num / cfg.linesPerPacket)
          default =
        { received := true, line_num := line_num, lines_per_packet := cfg.linesPerPacket,
          packet_data := data }
      ∧ ∀ j, j ≠ line_num / cfg.linesPerPacket →
          (add_to_slots cfg cf line_num data).packets.getD j default =
            cf.packets.getD j default)
    ∧ (∀ (cfg : Cfg) (cf : FrameAssembly) (line_num : Nat) (data : Nat → Nat),
        (cf.packets.getD (line_num / cfg.linesPerPacket) default).received = true →
        add_to_slots cfg cf line_num data = cf)
    ∧ (∀ (cfg : Cfg) (ctx : Context) (line_num : Nat) (last : Bool) (data : Nat → Nat)
        (now : Nat), cfg.maxPackets ≤ line_num / cfg.linesPerPacket →
        add_packet cfg ctx line_num last data now = ctx) := by
  refine ⟨?_, ?_, ?_⟩
  · intro cfg cf line_num data hlen hidx hempty
    have hlt : line_num / cfg.linesPerPacket < cf.packets.length := by omega
    simp only [List.getD_eq_getElem?_getD] at hempty
    refine ⟨?_, ?_, ?_⟩
    · simp [add_to_slots, hempty]
    · simp [add_to_slots, hempty, List.getD_eq_getElem?_getD, List.getElem?_set_self hlt]
    · intro j hj
      simp [add_to_slots, hempty, List.getD_eq_getElem?_getD,
        List.getElem?_set_ne (Ne.symm hj)]
  · intro cfg cf line_num data hocc
    simp only [List.getD_eq_getElem?_getD] at hocc
    simp [add_to_slots, hocc]
  · intro cfg ctx line_num last data now hge
    simp [add_packet, Nat.not_lt.mpr hge]

/-- Witness for C4 at concrete inputs. -/
theorem slot_update_first_writer_wins_witness :
    ((⟨7, 0, 0, 0, List.replicate 2 default⟩ : FrameAssembly).packets.length =
        (⟨2, 4, 100⟩ : Cfg).maxPackets ∧
      4 / 4 < 2 ∧
      ((⟨7, 0, 0, 0, List.replicate 2 default⟩ : FrameAssembly).packets.getD (4 / 4)
        default).received = false) ∧
    (add_to_slots ⟨2, 4, 100⟩ ⟨7, 0, 0, 0, List.replicate 2 default⟩ 4
      (fun _ => 0)).received_packets = 0 + 1 :=
  ⟨⟨rfl, by decide, rfl⟩,
    (slot_update_first_writer_wins.1 ⟨2, 4, 100⟩ ⟨7, 0, 0, 0, List.replicate 2 default⟩ 4
      (fun _ => 0) rfl (by decide) rfl).1⟩

/-- C2: the assemble-and-swap block runs at most once per frame number: it
is a no-op when `last_completed_frame` already equals the current frame
number; when it runs it performs the conversion-and-swap and records the
frame number in `last_completed_frame`; and running it twice in a row
changes nothing more (both the preemption path and the in-frame completion
path go through this same guarded block, `try_complete`). -/
theorem assemble_swap_at_most_once_per_frame :
    (∀ (ctx : Context) (now cap : Nat),
      ctx.last_completed_frame = ctx.current_frame.frame_num →
      try_complete ctx now cap = ctx)
    ∧ (∀ (ctx : Context) (now cap : Nat),
      ctx.last_completed_frame ≠ ctx.current_frame.frame_num →
      (try_complete ctx now cap).last_completed_frame = ctx.current_frame.frame_num
      ∧ (try_complete ctx now cap).frame_buffer_front =
          assemble_frame_to_buffer ctx.height ctx.frame_buffer_back ctx.current_frame
      ∧ (try_complete ctx now cap).frames_delivered_to_obs = ctx.frames_delivered_to_obs + 1
      ∧ (try_complete ctx now cap).frame_ready = true)
    ∧ (∀ (ctx : Context) (n1 c1 n2 c2 : Nat),
      try_complete (try_complete ctx n1 c1) n2 c2 = try_complete ctx n1 c1) := by
  have hrun : ∀ (ctx : Context) (now cap : Nat),
      ctx.last_completed_frame = ctx.current_frame.frame_num → try_complete ctx now cap = ctx := by
    intro ctx now cap h
    simp [try_complete, h]
  refine ⟨hrun, ?_, ?_⟩
  · intro ctx now cap h
    simp [try_complete, swap_frame_buffers, h]
  · intro ctx n1 c1 n2 c2
    by_cases h : ctx.last_completed_frame = ctx.current_frame.frame_num
    · rw [hrun ctx n1 c1 h, hrun ctx n2 c2 h]
    · apply hrun
      simp [try_complete, swap_frame_buffers, h]

/-- Witness for C2 at a concrete context. -/
theorem assemble_swap_at_most_once_per_frame_witness :
    sampleCtx.last_completed_frame ≠ sampleCtx.current_frame.frame_num ∧
    (try_complete sampleCtx 0 0).last_completed_frame = sampleCtx.current_frame.frame_num :=
  ⟨by decide, (assemble_swap_at_most_once_per_frame.2.1 sampleCtx 0 0 (by decide)).1⟩

/-! Lemmas: which fields the completion block and format detection touch. -/

theorem try_complete_frame_drops (ctx : Context) (now cap : Nat) :
    (try_complete ctx now cap).frame_drops = ctx.frame_drops := by
  simp only [try_complete, swap_frame_buffers]
  split <;> rfl

theorem detect_format_frame_drops (ctx : Context) (fh : Nat) :
    (detect_format ctx fh).frame_drops = ctx.frame_drops := by
  simp only [detect_format]
  split
  · split <;> rfl
  · rfl

theorem add_packet_frame_drops (cfg : Cfg) (ctx : Context) (line_num : Nat) (last : Bool)
    (data : Nat → Nat) (now : Nat) :
    (add_packet cfg ctx line_num last data now).frame_drops = ctx.frame_drops := by
  simp only [add_packet]
  split
  · split
    · split
      · simp [try_complete_frame_drops, detect_format_frame_drops]
      · simp [try_complete_frame_drops]
    · split
      · simp [detect_format_frame_drops]
      · rfl
  · rfl

theorem handle_new_frame_drops (cfg : Cfg) (ctx : Context) (frame_num now : Nat) :
    (handle_new_frame cfg ctx frame_num now).frame_drops =
      if 0 < ctx.current_frame.received_packets ∧
          is_frame_complete ctx.current_frame = false ∧
          is_frame_timeout cfg now ctx.current_frame = true
        then ctx.frame_drops + 1 else ctx.frame_drops := by
  simp only [handle_new_frame]
  by_cases h1 : 0 < ctx.current_frame.received_packets
  · by_cases h2 : is_frame_complete ctx.current_frame = true
    · simp [h1, h2, try_complete_frame_drops]
    · have h2f : is_frame_complete ctx.current_frame = false := by
        simpa [Bool.not_eq_true] using h2
      by_cases h3 : is_frame_timeout cfg now ctx.current_frame = true
      · simp [h1, h2f, h3]
      · have h3f : is_frame_timeout cfg now ctx.current_frame = false := by
          simpa [Bool.not_eq_true] using h3
        simp [h1, h2f, h3f]
  · simp [h1]

/-- C6: a frame whose completion packet never arrives in time is dropped
exactly once and never retried: on the frame-number change that finalizes
it, `frame_drops` is incremented by exactly one precisely when the old
frame holds packets, is not complete, and has timed out (unchanged in every
other case), the assembly state is always reset to a fresh table for the
new frame number, and packets for the current frame number never touch the
drop counter. -/
theorem frame_timeout_dropped_once :
    (∀ (cfg : Cfg) (ctx : Context) (frame_num now : Nat),
      (handle_new_frame cfg ctx frame_num now).current_frame =
        init_frame_assembly cfg frame_num now)
    ∧ (∀ (cfg : Cfg) (ctx : Context) (frame_num now : Nat),
      0 < ctx.current_frame.received_packets →
      is_frame_complete ctx.current_frame = false →
      is_frame_timeout cfg now ctx.current_frame = true →
      (handle_new_frame cfg ctx frame_num now).frame_drops = ctx.frame_drops + 1)
    ∧ (∀ (cfg : Cfg) (ctx : Context) (frame_num now : Nat),
      ctx.current_frame.received_packets = 0 ∨ is_frame_complete ctx.current_frame = true ∨
        is_frame_timeout cfg now ctx.current_frame = false →
      (handle_new_frame cfg ctx frame_num now).frame_drops = ctx.frame_drops)
    ∧ (∀ (cfg : Cfg) (ctx : Context) (frame_num line_num_raw now : Nat) (data : Nat → Nat),
      ctx.current_frame.frame_num = frame_num →
      (process_packet cfg ctx frame_num line_num_raw data now).frame_drops =
        ctx.frame_drops) := by
  refine ⟨?_, ?_, ?_, ?_⟩
  · intro cfg ctx frame_num now
    simp only [handle_new_frame]
  · intro cfg ctx frame_num now hrec hnc hto
    rw [handle_new_frame_drops]
    simp [hrec, hnc, hto]
  · intro cfg ctx frame_num now h
    rw [handle_new_frame_drops]
    rcases h with h | h | h <;> simp [h]
  · intro cfg ctx frame_num line_num_raw now data h
    simp [process_packet, h, add_packet_frame_drops]

/-- Witness for C6 at a concrete context (one packet held, incomplete,
timed out). -/
theorem frame_timeout_dropped_once_witness :
    (0 < sampleCtx.current_frame.received_packets ∧
      is_frame_complete sampleCtx.current_frame = false ∧
      is_frame_timeout ⟨2, 4, 100⟩ 200000000 sampleCtx.current_frame = true) ∧
    (handle_new_frame ⟨2, 4, 100⟩ sampleCtx 8 200000000).frame_drops =
      sampleCtx.frame_drops + 1 :=
  ⟨⟨by decide, by decide, by decide⟩,
    frame_timeout_dropped_once.2.1 ⟨2, 4, 100⟩ sampleCtx 8 200000000 (by decide) (by decide)
      (by decide)⟩

/-- C10: the in-frame completion path resets the live slot table with frame
number 0 and start time equal to the reset instant; afterwards a packet
triggers the new-frame finalization path exactly when its frame number is
nonzero, while a packet with frame number 0 is accumulated directly with no
finalization step. -/
theorem completion_resets_to_frame_zero :
    (∀ (cfg : Cfg) (ctx : Context) (line_num : Nat) (last : Bool) (data : Nat → Nat)
      (now : Nat),
      line_num / cfg.linesPerPacket < cfg.maxPackets →
      is_frame_complete (accumulate cfg ctx.current_frame line_num last data) = true →
      (add_packet cfg ctx line_num last data now).current_frame =
        init_frame_assembly cfg 0 now)
    ∧ (∀ (cfg : Cfg) (ctx : Context) (frame_num line_num_raw now : Nat) (data : Nat → Nat),
      ctx.current_frame.frame_num = 0 → frame_num ≠ 0 →
      process_packet cfg ctx frame_num line_num_raw data now =
        add_packet cfg (handle_new_frame cfg ctx frame_num now) (line_num_raw &&& 0x7FFF)
          ((line_num_raw &&& 0x8000) != 0) data now)
    ∧ (∀ (cfg : Cfg) (ctx : Context) (line_num_raw now : Nat) (data : Nat → Nat),
      ctx.current_frame.frame_num = 0 →
      process_packet cfg ctx 0 line_num_raw data now =
        add_packet cfg ctx (line_num_raw &&& 0x7FFF) ((line_num_raw &&& 0x8000) != 0) data
          now) := by
  refine ⟨?_, ?_, ?_⟩
  · intro cfg ctx line_num last data now hidx hcomp
    simp [add_packet, hidx, hcomp]
  · intro cfg ctx frame_num line_num_raw now data h hfn
    have h0 : ctx.current_frame.frame_num ≠ frame_num := by omega
    simp [process_packet, h0]
  · intro cfg ctx line_num_raw now data h
    simp [process_packet, h]

/-- Witness for C10: a one-slot frame completed by its only (last) packet. -/
theorem completion_resets_to_frame_zero_witness :
    (0 / (4 : Nat) < 1 ∧
      is_frame_complete
        (accumulate ⟨1, 4, 100⟩
          ({ sampleCtx with current_frame := ⟨0, 0, 0, 0, List.replicate 1 default⟩ } :
            Context).current_frame 0 true (fun _ => 5)) = true) ∧
    (add_packet ⟨1, 4, 100⟩
        { sampleCtx with current_frame := ⟨0, 0, 0, 0, List.replicate 1 default⟩ } 0 true
        (fun _ => 5) 99).current_frame = init_frame_assembly ⟨1, 4, 100⟩ 0 99 :=
  ⟨⟨by decide, by decide⟩,
    completion_resets_to_frame_zero.1 ⟨1, 4, 100⟩
      { sampleCtx with current_frame := ⟨0, 0, 0, 0, List.replicate 1 default⟩ } 0 true
      (fun _ => 5) 99 (by decide) (by decide)⟩

/-! Lemmas: the completion block does not touch the format fields. -/

theorem try_complete_detected_height (ctx : Context) (now cap : Nat) :
    (try_complete ctx now cap).detected_frame_height = ctx.detected_frame_height := by
  simp only [try_complete, swap_frame_buffers]
  split <;> rfl

theorem try_complete_expected_fps (ctx : Context) (now cap : Nat) :
    (try_complete ctx now cap).expected_fps = ctx.expected_fps := by
  simp only [try_complete, swap_frame_buffers]
  split <;> rfl

/-- C5: when the first last-packet of a frame arrives (in bounds), format
detection runs with `frame_height = line_num + lines_per_packet`, and when
no format was detected yet (or the height changed) the expected rate is
chosen deterministically: height 288 gives 50 Hz, height 240 gives 60 Hz,
and any other height gives 60 Hz when at most 250 and 50 Hz otherwise. -/
theorem format_detection_rate_selection :
    (∀ (ctx : Context) (fh : Nat),
      ctx.format_detected = false ∨ ctx.detected_frame_height ≠ fh →
      (detect_format ctx fh).expected_fps =
        (if fh = 288 then (50 : ℚ) else if fh = 240 then 60 else if fh ≤ 250 then 60 else 50)
      ∧ (detect_format ctx fh).detected_frame_height = fh
      ∧ (detect_format ctx fh).format_detected = true)
    ∧ (∀ (ctx : Context) (fh : Nat),
      ctx.format_detected = true → ctx.detected_frame_height = fh →
      detect_format ctx fh = ctx)
    ∧ (∀ (cfg : Cfg) (ctx : Context) (line_num : Nat) (data : Nat → Nat) (now : Nat),
      line_num / cfg.linesPerPacket < cfg.maxPackets →
      ctx.current_frame.expected_packets = 0 →
      ctx.format_detected = false →
      (add_packet cfg ctx line_num true data now).detected_frame_height =
          line_num + cfg.linesPerPacket
      ∧ (add_packet cfg ctx line_num true data now).expected_fps =
          (if line_num + cfg.linesPerPacket = 288 then (50 : ℚ)
           else if line_num + cfg.linesPerPacket = 240 then 60
           else if line_num + cfg.linesPerPacket ≤ 250 then 60 else 50)) := by
  have hbeh : ∀ (ctx : Context) (fh : Nat),
      ctx.format_detected = false ∨ ctx.detected_frame_height ≠ fh →
      (detect_format ctx fh).expected_fps =
        (if fh = 288 then (50 : ℚ) else if fh = 240 then 60 else if fh ≤ 250 then 60 else 50)
      ∧ (detect_format ctx fh).detected_frame_height = fh
      ∧ (detect_format ctx fh).format_detected = true := by
    intro ctx fh h
    have hc : (!ctx.format_detected || decide (ctx.detected_frame_height ≠ fh)) = true := by
      rcases h with h | h <;> simp [h]
    simp only [detect_format, C64U_PAL_HEIGHT, C64U_NTSC_HEIGHT, hc, if_true]
    split <;> exact ⟨rfl, rfl, rfl⟩
  refine ⟨hbeh, ?_, ?_⟩
  · intro ctx fh h1 h2
    simp [detect_format, h1, h2]
  · intro cfg ctx line_num data now hidx hexp hdet
    have hslots : (add_to_slots cfg ctx.current_frame line_num data).expected_packets = 0 := by
      rw [add_to_slots_expected]
      exact hexp
    have hres := hbeh ctx (line_num + cfg.linesPerPacket) (Or.inl hdet)
    simp only [add_packet, hidx, if_true, hslots, beq_self_eq_true, Bool.and_true,
      Bool.and_self]
    split
    · constructor
      · rw [try_complete_detected_height]
        exact hres.2.1
      · rw [try_complete_expected_fps]
        exact hres.1
    · exact ⟨hres.2.1, hres.1⟩

/-- Witness for C5: a fresh context detecting a 288-row (PAL) frame. -/
theorem format_detection_rate_selection_witness :
    (sampleCtx.format_detected = false ∨ sampleCtx.detected_frame_height ≠ 288) ∧
    (detect_format sampleCtx 288).expected_fps =
      (if (288 : Nat) = 288 then (50 : ℚ) else if (288 : Nat) = 240 then 60
       else if (288 : Nat) ≤ 250 then 60 else 50) :=
  ⟨Or.inl rfl, (format_detection_rate_selection.1 sampleCtx 288 (Or.inl rfl)).1⟩

/-! Lemmas: the state effects of the timing-engine operations. The debt
update inside `c64u_timing_should_deliver_frame` sits behind
`obs_elapsed > obs_frame_interval_ns` on a path already restricted to
`obs_elapsed < obs_frame_interval_ns / 2`, so the returned state is always
the input state, possibly with a refreshed delivery timestamp. -/

theorem should_deliver_snd (t : TimingState) (now : Nat) :
    (c64u_timing_should_deliver_frame t now).2 = t ∨
    (c64u_timing_should_deliver_frame t now).2 = { t with last_obs_frame_time := now } := by
  cases h : t.strategy
  case passthrough => simp [c64u_timing_should_deliver_frame, h]
  all_goals
    simp only [c64u_timing_should_deliver_frame, h]
  all_goals
    split
    · exact Or.inl rfl
    · split
      · exact Or.inr rfl
      · split
        · exact Or.inl rfl
        · rename_i hmin
          have hg : ¬(t.frames_received > 10 ∧
              u64sub now t.last_obs_frame_time > t.obs_frame_interval_ns) := by
            rintro ⟨-, hgt⟩
            omega
          rw [if_neg hg]
          exact Or.inl rfl

theorem should_deliver_fst_of_lt10 (t : TimingState) (now : Nat)
    (hs : t.strategy ≠ Strategy.passthrough) (hd : t.frames_delivered < 10) :
    (c64u_timing_should_deliver_frame t now).1 = true := by
  cases h : t.strategy
  case passthrough => exact absurd h hs
  all_goals simp [c64u_timing_should_deliver_frame, h, hd]

theorem get_frame_effect_delivered (t : TimingState) :
    (c64u_timing_get_frame_effect t).frames_delivered = t.frames_delivered := by
  cases h : t.strategy <;> simp only [c64u_timing_get_frame_effect, h]
  all_goals try split_ifs
  all_goals rfl

theorem get_frame_effect_strategy (t : TimingState) :
    (c64u_timing_get_frame_effect t).strategy = t.strategy := by
  cases h : t.strategy <;> simp only [c64u_timing_get_frame_effect, h]
  all_goals try split_ifs
  all_goals first | rfl | exact h

theorem get_frame_effect_debt_zero (t : TimingState) (h : t.frame_debt = 0) :
    (c64u_timing_get_frame_effect t).frame_debt = 0 := by
  cases hstrat : t.strategy <;> simp only [c64u_timing_get_frame_effect, hstrat]
  all_goals try rw [if_neg (by rw [h]; norm_num), if_neg (by rw [h]; norm_num)]
  all_goals exact h

theorem on_delivered_delivered (t : TimingState) (now : Nat) :
    (c64u_timing_on_obs_frame_delivered t now).frames_delivered = t.frames_delivered + 1 := by
  simp only [c64u_timing_on_obs_frame_delivered]
  split <;> rfl

theorem on_delivered_strategy (t : TimingState) (now : Nat) :
    (c64u_timing_on_obs_frame_delivered t now).strategy = t.strategy := by
  simp only [c64u_timing_on_obs_frame_delivered]
  split <;> rfl

theorem on_delivered_debt (t : TimingState) (now : Nat) :
    (c64u_timing_on_obs_frame_delivered t now).frame_debt = t.frame_debt := by
  simp only [c64u_timing_on_obs_frame_delivered]
  split <;> rfl

theorem render_poll_fst (t : TimingState) (now : Nat) :
    (render_poll t now).1 = (c64u_timing_should_deliver_frame t now).1 := by
  by_cases h : (c64u_timing_should_deliver_frame t now).1 = true <;>
    simp [render_poll, h]

theorem render_poll_strategy (t : TimingState) (now : Nat) :
    (render_poll t now).2.strategy = t.strategy := by
  have hstr : (c64u_timing_should_deliver_frame t now).2.strategy = t.strategy := by
    rcases should_deliver_snd t now with h2 | h2 <;> rw [h2]
  by_cases h : (c64u_timing_should_deliver_frame t now).1 = true <;>
    simp only [render_poll, h, Bool.false_eq_true, if_true, if_false]
  · rw [on_delivered_strategy, get_frame_effect_strategy, hstr]
  · rw [hstr]

theorem render_poll_delivered_le (t : TimingState) (now : Nat) :
    (render_poll t now).2.frames_delivered ≤ t.frames_delivered + 1 := by
  have hdel : (c64u_timing_should_deliver_frame t now).2.frames_delivered =
      t.frames_delivered := by
    rcases should_deliver_snd t now with h2 | h2 <;> rw [h2]
  by_cases h : (c64u_timing_should_deliver_frame t now).1 = true <;>
    simp only [render_poll, h, Bool.false_eq_true, if_true, if_false]
  · rw [on_delivered_delivered, get_frame_effect_delivered, hdel]
  · rw [hdel]
    omega

theorem render_poll_debt_zero (t : TimingState) (now : Nat) (h : t.frame_debt = 0) :
    (render_poll t now).2.frame_debt = 0 := by
  have hdebt : (c64u_timing_should_deliver_frame t now).2.frame_debt = 0 := by
    rcases should_deliver_snd t now with h2 | h2 <;> rw [h2] <;> exact h
  by_cases hb : (c64u_timing_should_deliver_frame t now).1 = true <;>
    simp only [render_poll, hb, Bool.false_eq_true, if_true, if_false]
  · rw [on_delivered_debt]
    exact get_frame_effect_debt_zero _ hdebt
  · exact hdebt

theorem poll_trace_delivered_le (t : TimingState) (times : Nat → Nat) (k : Nat) :
    (poll_trace t times k).frames_delivered ≤ t.frames_delivered + k := by
  induction k with
  | zero => simp [poll_trace]
  | succ n ih =>
    have := render_poll_delivered_le (poll_trace t times n) (times n)
    simp only [poll_trace]
    omega

theorem poll_trace_strategy (t : TimingState) (times : Nat → Nat) (k : Nat) :
    (poll_trace t times k).strategy = t.strategy := by
  induction k with
  | zero => rfl
  | succ n ih =>
    simp only [poll_trace]
    rw [render_poll_strategy]
    exact ih

/-- C7: the shared non-passthrough delivery policy: the first 10 calls all
deliver regardless of elapsed time (and so does any state with fewer than
10 frames delivered); any state with fewer than 5 source frames received
or no prior delivery timestamp delivers; otherwise the call delivers
exactly when the elapsed time since the last delivery is at least half the
target interval or the delivered count is at most the number of whole
target intervals in the elapsed time. -/
theorem should_deliver_policy :
    (∀ (t : TimingState) (now : Nat), t.strategy ≠ Strategy.passthrough →
      t.frames_delivered < 10 → (c64u_timing_should_deliver_frame t now).1 = true)
    ∧ (∀ (t : TimingState) (now : Nat), t.strategy ≠ Strategy.passthrough →
      t.frames_received < 5 ∨ t.last_obs_frame_time = 0 →
      (c64u_timing_should_deliver_frame t now).1 = true)
    ∧ (∀ (t : TimingState) (now : Nat), t.strategy ≠ Strategy.passthrough →
      10 ≤ t.frames_delivered → 5 ≤ t.frames_received → t.last_obs_frame_time ≠ 0 →
      ((c64u_timing_should_deliver_frame t now).1 = true ↔
        t.obs_frame_interval_ns / 2 ≤ u64sub now t.last_obs_frame_time ∨
        t.frames_delivered ≤ u64sub now t.last_obs_frame_time / t.obs_frame_interval_ns))
    ∧ (∀ (t : TimingState) (times : Nat → Nat) (k : Nat),
      t.strategy ≠ Strategy.passthrough → t.frames_delivered = 0 → k < 10 →
      poll_decision t times k = true) := by
  refine ⟨should_deliver_fst_of_lt10, ?_, ?_, ?_⟩
  · intro t now hs h
    cases hstr : t.strategy
    case passthrough => exact absurd hstr hs
    all_goals simp only [c64u_timing_should_deliver_frame, hstr]
    all_goals
      split
      · rfl
      · rw [if_pos (Or.symm h)]
  · intro t now hs hd hr hlast
    cases hstr : t.strategy
    case passthrough => exact absurd hstr hs
    all_goals simp only [c64u_timing_should_deliver_frame, hstr]
    all_goals
      rw [if_neg (by omega), if_neg (by rintro (h | h) <;> omega)]
      split
      · rename_i hmin
        simp only [true_iff]
        exact Or.inl hmin
      · rename_i hmin
        simp only [decide_eq_true_eq]
        constructor
        · intro hle
          exact Or.inr hle
        · rintro (h | h)
          · exact absurd h hmin
          · exact h
  · intro t times k hs hd hk
    unfold poll_decision
    rw [render_poll_fst]
    apply should_deliver_fst_of_lt10
    · rw [poll_trace_strategy]
      exact hs
    · have := poll_trace_delivered_le t times k
      omega

/-- Witness for C7 on a concrete adaptive state with zero deliveries. -/
theorem should_deliver_policy_witness :
    ((c64u_timing_init Strategy.adaptive 50 50).strategy ≠ Strategy.passthrough ∧
      (c64u_timing_init Strategy.adaptive 50 50).frames_delivered < 10) ∧
    (c64u_timing_should_deliver_frame (c64u_timing_init Strategy.adaptive 50 50) 12345).1 =
      true :=
  ⟨⟨by decide, by norm_num [c64u_timing_init]⟩,
    should_deliver_policy.1 (c64u_timing_init Strategy.adaptive 50 50) 12345 (by decide)
      (by norm_num [c64u_timing_init])⟩

/-- C8: under the adaptive strategy with equal source and target rates,
polling with `now` advancing by exactly one target interval per step keeps
`frame_debt` at zero forever: the debt increment is gated on more than 10
received frames and an elapsed window strictly above one target interval,
and the threshold step-backs at debt beyond 2 never fire. -/
theorem adaptive_equal_rates_debt_stays_zero (f : ℚ) (start k : Nat) :
    (poll_trace (c64u_timing_init Strategy.adaptive f f)
        (fun j => start + j * (c64u_timing_init Strategy.adaptive f f).obs_frame_interval_ns)
        k).frame_debt = 0 := by
  induction k with
  | zero => rfl
  | succ n ih =>
    simp only [poll_trace]
    exact render_poll_debt_zero _ _ ih

/-- A streaming context whose timing engine has recorded one duplicated
frame; used to examine what `c64u_stop_streaming` resets. -/
def dupCtx : Context :=
  { sampleCtx with
    timing := some
      { c64u_timing_init Strategy.adaptive 50 50 with frames_duplicated := 1 } }

/-- C9 counterexample: after `c64u_stop_streaming` on a streaming context
whose timing engine holds a nonzero duplicated-frame counter, that counter
still reads 1, not 0 — stop does not touch the timing state, so the claim
that the duplicated counter reads zero after stop fails here. -/
theorem stop_streaming_duplicated_survives :
    (c64u_stop_streaming ⟨2, 4, 100⟩ dupCtx).timing.map TimingState.frames_duplicated =
        some 1 ∧
      dupCtx.streaming = true := by
  constructor <;> rfl

/-- C9 (amended): after `c64u_stop_streaming` returns on a streaming
context, the context's delivered and dropped counters
(`frames_delivered_to_obs`, `frames_completed`, `frame_drops`,
`packet_drops`, `frames_expected`, `frames_captured`) read zero, both
pixel buffers are entirely zero, `frame_ready`/`buffer_swap_pending` are
cleared and the frame-assembly state is reset with
`last_completed_frame = 0`; the timing engine's state (which holds the
delivered/dropped/duplicated counters of the timing module) is left
untouched by stop. -/
theorem stop_streaming_resets :
    ∀ (cfg : Cfg) (ctx : Context), ctx.streaming = true →
      (c64u_stop_streaming cfg ctx).frames_delivered_to_obs = 0
      ∧ (c64u_stop_streaming cfg ctx).frames_completed = 0
      ∧ (c64u_stop_streaming cfg ctx).frame_drops = 0
      ∧ (c64u_stop_streaming cfg ctx).packet_drops = 0
      ∧ (c64u_stop_streaming cfg ctx).frames_expected = 0
      ∧ (c64u_stop_streaming cfg ctx).frames_captured = 0
      ∧ (∀ row col, (c64u_stop_streaming cfg ctx).frame_buffer_front row col = 0)
      ∧ (∀ row col, (c64u_stop_streaming cfg ctx).frame_buffer_back row col = 0)
      ∧ (c64u_stop_streaming cfg ctx).frame_ready = false
      ∧ (c64u_stop_streaming cfg ctx).buffer_swap_pending = false
      ∧ (c64u_stop_streaming cfg ctx).current_frame.received_packets = 0
      ∧ (c64u_stop_streaming cfg ctx).current_frame.expected_packets = 0
      ∧ (c64u_stop_streaming cfg ctx).last_completed_frame = 0
      ∧ (c64u_stop_streaming cfg ctx).streaming = false
      ∧ (c64u_stop_streaming cfg ctx).timing = ctx.timing := by
  intro cfg ctx h
  simp [c64u_stop_streaming, h]

/-- Witness for C9 (amended) at a concrete streaming context. -/
theorem stop_streaming_resets_witness :
    dupCtx.streaming = true ∧
      (c64u_stop_streaming ⟨2, 4, 100⟩ dupCtx).frames_delivered_to_obs = 0 :=
  ⟨rfl, (stop_streaming_resets ⟨2, 4, 100⟩ dupCtx rfl).1⟩

/-! Lemmas: pointwise characterization of the color-conversion loops. -/

theorem write_pixels_lo (dst src : Nat → Nat) :
    ∀ (n x : Nat), x < n → write_pixels dst src n (2 * x) = palette (src x % 16) := by
  intro n
  induction n with
  | zero => intro x hx; omega
  | succ m ih =>
    intro x hx
    simp only [write_pixels]
    rw [if_neg (by omega)]
    by_cases hxm : x = m
    · subst hxm
      rw [if_pos rfl]
    · rw [if_neg (by omega)]
      exact ih x (by omega)

theorem write_pixels_hi (dst src : Nat → Nat) :
    ∀ (n x : Nat), x < n → write_pixels dst src n (2 * x + 1) = palette (src x / 16) := by
  intro n
  induction n with
  | zero => intro x hx; omega
  | succ m ih =>
    intro x hx
    simp only [write_pixels]
    by_cases hxm : x = m
    · subst hxm
      rw [if_pos rfl]
    · rw [if_neg (by omega), if_neg (by omega)]
      exact ih x (by omega)

theorem write_pixels_ge (dst src : Nat → Nat) :
    ∀ (n c : Nat), 2 * n ≤ c → write_pixels dst src n c = dst c := by
  intro n
  induction n with
  | zero => intro c _; rfl
  | succ m ih =>
    intro c hc
    simp only [write_pixels]
    rw [if_neg (by omega), if_neg (by omega)]
    exact ih c (by omega)

theorem write_lines_at_lo (buf : Buffer) (line_num : Nat) (data : Nat → Nat) :
    ∀ (k line x : Nat), line < k → x < C64U_BYTES_PER_LINE →
      write_lines buf line_num data k (line_num + line) (2 * x) =
        palette (data (line * C64U_BYTES_PER_LINE + x) % 16) := by
  intro k
  induction k with
  | zero => intro line x hl _; omega
  | succ m ih =>
    intro line x hl hx
    simp only [write_lines, update_row]
    by_cases hlm : line = m
    · subst hlm
      rw [if_pos rfl]
      exact write_pixels_lo _ _ _ x hx
    · rw [if_neg (by omega)]
      exact ih line x (by omega) hx

theorem write_lines_at_hi (buf : Buffer) (line_num : Nat) (data : Nat → Nat) :
    ∀ (k line x : Nat), line < k → x < C64U_BYTES_PER_LINE →
      write_lines buf line_num data k (line_num + line) (2 * x + 1) =
        palette (data (line * C64U_BYTES_PER_LINE + x) / 16) := by
  intro k
  induction k with
  | zero => intro line x hl _; omega
  | succ m ih =>
    intro line x hl hx
    simp only [write_lines, update_row]
    by_cases hlm : line = m
    · subst hlm
      rw [if_pos rfl]
      exact write_pixels_hi _ _ _ x hx
    · rw [if_neg (by omega)]
      exact ih line x (by omega) hx

theorem write_lines_other (buf : Buffer) (line_num : Nat) (data : Nat → Nat) :
    ∀ (k r : Nat), r < line_num ∨ line_num + k ≤ r →
      write_lines buf line_num data k r = buf r := by
  intro k
  induction k with
  | zero => intro r _; rfl
  | succ m ih =>
    intro r hr
    simp only [write_lines, update_row]
    rw [if_neg (by omega)]
    exact ih r (by omega)

/-- The row range a slot writes during frame assembly. -/
def covers (height : Nat) (p : FramePacket) (r : Nat) : Prop :=
  p.received = true ∧ p.line_num ≤ r ∧
    r < p.line_num + min p.lines_per_packet (height - p.line_num)

theorem write_packet_lo (height : Nat) (buf : Buffer) (p : FramePacket) (line x : Nat)
    (hr : p.received = true) (hl : line < p.lines_per_packet)
    (hh : p.line_num + line < height) (hx : x < C64U_BYTES_PER_LINE) :
    write_packet height buf p (p.line_num + line) (2 * x) =
      palette (p.packet_data (line * C64U_BYTES_PER_LINE + x) % 16) := by
  simp only [write_packet, hr, if_true]
  exact write_lines_at_lo buf p.line_num p.packet_data _ line x (by omega) hx

theorem write_packet_hi (height : Nat) (buf : Buffer) (p : FramePacket) (line x : Nat)
    (hr : p.received = true) (hl : line < p.lines_per_packet)
    (hh : p.line_num + line < height) (hx : x < C64U_BYTES_PER_LINE) :
    write_packet height buf p (p.line_num + line) (2 * x + 1) =
      palette (p.packet_data (line * C64U_BYTES_PER_LINE + x) / 16) := by
  simp only [write_packet, hr, if_true]
  exact write_lines_at_hi buf p.line_num p.packet_data _ line x (by omega) hx

theorem write_packet_not_covers (height : Nat) (buf : Buffer) (p : FramePacket) (r : Nat)
    (h : ¬covers height p r) : write_packet height buf p r = buf r := by
  by_cases hr : p.received = true
  · simp only [write_packet, hr, if_true]
    apply write_lines_other
    simp only [covers, hr, true_and, not_and, not_lt] at h
    by_cases h1 : r < p.line_num
    · exact Or.inl h1
    · exact Or.inr (h (by omega))
  · simp only [write_packet]
    rw [if_neg hr]

theorem write_packet_ge_height (height : Nat) (buf : Buffer) (p : FramePacket) (r : Nat)
    (h : height ≤ r) : write_packet height buf p r = buf r := by
  apply write_packet_not_covers
  rintro ⟨-, h1, h2⟩
  have := Nat.min_le_right p.lines_per_packet (height - p.line_num)
  omega

theorem foldl_write_not_covers (height : Nat) :
    ∀ (l : List FramePacket) (b : Buffer) (r : Nat),
      (∀ q ∈ l, ¬covers height q r) → l.foldl (write_packet height) b r = b r := by
  intro l
  induction l with
  | nil => intro b r _; rfl
  | cons q l ih =>
    intro b r h
    simp only [List.foldl_cons]
    rw [ih (write_packet height b q) r fun q2 hq2 => h q2 (List.mem_cons_of_mem q hq2)]
    exact write_packet_not_covers height b q r (h q (List.mem_cons_self q l))

theorem foldl_write_ge_height (height : Nat) :
    ∀ (l : List FramePacket) (b : Buffer) (r : Nat), height ≤ r →
      l.foldl (write_packet height) b r = b r := by
  intro l
  induction l with
  | nil => intro b r _; rfl
  | cons q l ih =>
    intro b r h
    simp only [List.foldl_cons]
    rw [ih (write_packet height b q) r h]
    exact write_packet_ge_height height b q r h

/-- C3: for a received slot `p` and a payload byte at horizontal byte
offset `x` of row `line` within the packet (with no later slot rewriting
that row), frame assembly leaves in back-buffer row `line_num + line` the
palette entry of the byte's low nibble at column `2*x` and the palette
entry of its high nibble at column `2*x + 1`; rows at or beyond the frame
height are never written. -/
theorem nibble_pair_palette_expansion :
    ∀ (height : Nat) (buf : Buffer) (frame : FrameAssembly) (l1 l2 : List FramePacket)
      (p : FramePacket) (line x : Nat),
      frame.packets = l1 ++ p :: l2 →
      p.received = true →
      line < p.lines_per_packet →
      p.line_num + line < height →
      x < C64U_BYTES_PER_LINE →
      p.packet_data (line * C64U_BYTES_PER_LINE + x) < 256 →
      (∀ q ∈ l2, ¬covers height q (p.line_num + line)) →
      assemble_frame_to_buffer height buf frame (p.line_num + line) (2 * x) =
        palette (p.packet_data (line * C64U_BYTES_PER_LINE + x) % 16)
      ∧ assemble_frame_to_buffer height buf frame (p.line_num + line) (2 * x + 1) =
        palette (p.packet_data (line * C64U_BYTES_PER_LINE + x) / 16)
      ∧ ∀ (r c : Nat), height ≤ r →
          assemble_frame_to_buffer height buf frame r c = buf r c := by
  intro height buf frame l1 l2 p line x hsplit hr hl hh hx hbyte hl2
  have hfold : ∀ c, assemble_frame_to_buffer height buf frame (p.line_num + line) c =
      write_packet height (l1.foldl (write_packet height) buf) p (p.line_num + line) c := by
    intro c
    rw [assemble_frame_to_buffer, hsplit, List.foldl_append, List.foldl_cons,
      foldl_write_not_covers height l2 _ _ hl2]
  refine ⟨?_, ?_, ?_⟩
  · rw [hfold]
    exact write_packet_lo height _ p line x hr hl hh hx
  · rw [hfold]
    exact write_packet_hi height _ p line x hr hl hh hx
  · intro r c hr2
    rw [assemble_frame_to_buffer, foldl_write_ge_height height frame.packets buf r hr2]

/-- Witness for C3: a one-slot frame holding byte `0x05` (low nibble 5,
high nibble 0) in its first payload position. -/
theorem nibble_pair_palette_expansion_witness :
    ((⟨true, 0, 1, fun _ => 5⟩ : FramePacket).received = true ∧ (5 : Nat) < 256) ∧
    assemble_frame_to_buffer 1 (fun _ _ => 0)
        ⟨7, 0, 1, 1, [⟨true, 0, 1, fun _ => 5⟩]⟩ (0 + 0) (2 * 0) = palette (5 % 16) :=
  ⟨⟨rfl, by decide⟩,
    (nibble_pair_palette_expansion 1 (fun _ _ => 0)
      ⟨7, 0, 1, 1, [⟨true, 0, 1, fun _ => 5⟩]⟩ [] [] ⟨true, 0, 1, fun _ => 5⟩ 0 0 rfl rfl
      (by decide) (by decide) (by decide) (by decide) (by simp)).1⟩

end C64U
